import Mathlib

/-!
Shallow embedding of the conversation/message state engine of the
frontend-dbass repository.

The embedded code lives in:
  * src/src/types/index.ts        (Message, Conversation, ChatState, ChatMode)
  * src/src/utils/helpers.ts      (createMessage, generateConversationTitle,
                                   truncateText, validateMessage,
                                   updateConversationWithMessage,
                                   sortConversationsByDate, limitConversations)
  * src/src/utils/constants.ts    (APP_CONFIG.MAX_MESSAGE_LENGTH,
                                   CHAT_CONSTANTS.MAX_CONVERSATIONS)
  * src/src/contexts/UIContext.tsx (ChatProvider: chatReducer and the
                                   operations sendMessage, createNewConversation,
                                   selectConversation, deleteConversation,
                                   loadConversations, loadCurrentConversation,
                                   clearError)
  * src/src/services/storage.ts   (LocalStorageService JSON round trip,
                                   storageUtils.saveConversations /
                                   loadConversations / loadCurrentConversationId)

Modelling conventions:
  * JavaScript Date instants are modelled as Nat epoch milliseconds.
  * Every call of Date.now() / new Date() in the source becomes an explicit
    Nat argument of the embedded operation, and every generateId() call
    becomes an explicit String argument, so that the embedding stays a pure
    function of its inputs.
  * The asynchronous backend (apiService) is modelled by passing the outcome
    of the one awaited call as an explicit argument (ok / err / exn, where
    err is a resolved response with success = false and exn is a rejected
    promise caught by the catch block).  The state immediately before the
    await (the synchronously observable state) and the state after the async
    tail are both returned.
  * JavaScript truthiness tests on the string-or-null field
    currentConversationId (for example `if (state.currentConversationId)`)
    are modelled by `optTruthy`, which is false for null and for the empty
    string.
-/

/-- Per-conversation chat mode (types/index.ts, ChatMode). -/
inductive ChatMode where
  | normal
  | deepthink
  | research
deriving DecidableEq, Repr

/-- Message author role (types/index.ts, Message.role). -/
inductive Role where
  | user
  | assistant
deriving DecidableEq, Repr

/-- One chat message (types/index.ts, Message).  The timestamp is epoch
milliseconds; the optional isTyping flag mirrors the optional field of the
TypeScript interface. -/
structure Message where
  id : String
  content : String
  role : Role
  timestamp : Nat
  isTyping : Option Bool
deriving DecidableEq, Repr

/-- One conversation (types/index.ts, Conversation).  mode is optional in the
TypeScript interface. -/
structure Conversation where
  id : String
  title : String
  messages : List Message
  createdAt : Nat
  updatedAt : Nat
  mode : Option ChatMode
deriving DecidableEq, Repr

/-- The chat store state (types/index.ts, ChatState). -/
structure ChatState where
  conversations : List Conversation
  currentConversationId : Option String
  isLoading : Bool
  isTyping : Bool
  error : Option String
deriving DecidableEq, Repr

/-- Initial state of the ChatProvider reducer (UIContext.tsx, initialState of
the chat provider). -/
def initialChatState : ChatState :=
  { conversations := []
    currentConversationId := none
    isLoading := false
    isTyping := false
    error := none }

/-- APP_CONFIG.MAX_MESSAGE_LENGTH (constants.ts). -/
def MAX_MESSAGE_LENGTH : Nat := 4000

/-- CHAT_CONSTANTS.MAX_CONVERSATIONS (constants.ts). -/
def MAX_CONVERSATIONS : Nat := 50

/-- Characters removed by String.prototype.trim, modelled as the common
ASCII whitespace set. -/
def isJsWhitespace (c : Char) : Bool :=
  c == ' ' || c == '\t' || c == '\n' || c == '\r'

/-- JavaScript String.prototype.trim: strip whitespace from both ends. -/
def jsTrim (s : String) : String :=
  String.mk (((s.data.dropWhile isJsWhitespace).reverse.dropWhile
    isJsWhitespace).reverse)

/-- Character-list worker for String.prototype.split with a single-space
separator: consecutive separators yield empty segments and the empty string
yields one empty segment, as in JavaScript. -/
def jsSplitSpaceChars : List Char → List (List Char)
  | [] => [[]]
  | c :: cs =>
      let r := jsSplitSpaceChars cs
      if c == ' ' then [] :: r
      else
        match r with
        | [] => [[c]]
        | g :: gs => (c :: g) :: gs

/-- JavaScript split with a single-space separator, as used by
generateConversationTitle. -/
def jsSplitSpace (s : String) : List String :=
  (jsSplitSpaceChars s.data).map String.mk

/-- JavaScript Array.prototype.join with a single-space separator. -/
def jsJoinSpace : List String → String
  | [] => ""
  | [s] => s
  | s :: rest => s ++ " " ++ jsJoinSpace rest

/-- JavaScript substr(0, n): the first n characters. -/
def jsSubstrTo (s : String) (n : Nat) : String :=
  String.mk (s.data.take n)

/-- JavaScript String length (character count). -/
def jsLength (s : String) : Nat := s.data.length

/-- JavaScript truthiness of a string-or-null value: null and the empty
string are falsy. -/
def optTruthy : Option String → Bool
  | none => false
  | some s => !(s == "")

/-- JavaScript `x || fallback` on an optional string: the fallback is used
when the value is null or the empty string. -/
def orFalsy (o : Option String) (fallback : String) : String :=
  match o with
  | none => fallback
  | some s => if s == "" then fallback else s

/-- helpers.ts truncateText: keep the text if it is within maxLength,
otherwise cut it and add an ellipsis. -/
def truncateText (text : String) (maxLength : Nat := 100) : String :=
  if jsLength text ≤ maxLength then text else (jsSubstrTo text maxLength) ++ "..."

/-- helpers.ts generateConversationTitle: first six space-separated words of
the trimmed first message, truncated to 50 characters. -/
def generateConversationTitle (firstMessage : String) : String :=
  let words := jsSplitSpace (jsTrim firstMessage)
  let title := jsJoinSpace (words.take 6)
  truncateText title 50

/-- Result of helpers.ts validateMessage. -/
structure ValidationResult where
  isValid : Bool
  error : Option String
deriving DecidableEq, Repr

/-- helpers.ts validateMessage: empty (or all-whitespace) content and content
longer than MAX_MESSAGE_LENGTH are invalid; everything else is valid. -/
def validateMessage (content : String) : ValidationResult :=
  if (content == "") || (jsLength (jsTrim content) == 0) then
    { isValid := false, error := some "Message cannot be empty" }
  else if MAX_MESSAGE_LENGTH < jsLength content then
    { isValid := false
      error := some "Message too long. Maximum 4000 characters allowed." }
  else
    { isValid := true, error := none }

/-- helpers.ts createMessage: trims the content and stamps the message with a
fresh id and the current time, here passed explicitly. -/
def createMessage (content : String) (role : Role) (newId : String)
    (now : Nat) : Message :=
  { id := newId
    content := jsTrim content
    role := role
    timestamp := now
    isTyping := some false }

/-- helpers.ts updateConversationWithMessage: append the message, refresh
updatedAt (new Date() in the source, passed here as now) and derive the title
from the message when it is the first one. -/
def updateConversationWithMessage (conversation : Conversation)
    (message : Message) (now : Nat) : Conversation :=
  { conversation with
    messages := conversation.messages ++ [message]
    updatedAt := now
    title :=
      if conversation.messages.length == 0 then
        generateConversationTitle message.content
      else conversation.title }

/-- One step of the stable insertion used to model Array.prototype.sort with
the comparator (a, b) => b.updatedAt - a.updatedAt: an element is placed
before the first element with a strictly smaller key, so elements with equal
keys keep their relative order. -/
def insertByUpdatedAtDesc (c : Conversation) :
    List Conversation → List Conversation
  | [] => [c]
  | d :: ds =>
      if d.updatedAt ≤ c.updatedAt then c :: d :: ds
      else d :: insertByUpdatedAtDesc c ds

/-- helpers.ts sortConversationsByDate: conversations sorted by updatedAt,
newest first (stable, as Array.prototype.sort is). -/
def sortConversationsByDate (conversations : List Conversation) :
    List Conversation :=
  conversations.foldr insertByUpdatedAtDesc []

/-- helpers.ts limitConversations: the MAX_CONVERSATIONS most recently
updated conversations. -/
def limitConversations (conversations : List Conversation) :
    List Conversation :=
  (sortConversationsByDate conversations).take MAX_CONVERSATIONS

/-- The action union of the chat reducer (UIContext.tsx, ChatAction).  The
ADD_MESSAGE variant carries the dispatch-time instant because the reducer
evaluates new Date() inside updateConversationWithMessage. -/
inductive ChatAction where
  | setLoading (payload : Bool)
  | setTyping (payload : Bool)
  | setError (payload : Option String)
  | setConversations (payload : List Conversation)
  | addConversation (payload : Conversation)
  | updateConversation (payload : Conversation)
  | deleteConversation (payload : String)
  | setCurrentConversation (payload : Option String)
  | addMessage (conversationId : String) (message : Message) (now : Nat)
deriving DecidableEq, Repr

/-- UIContext.tsx chatReducer, case by case from the source switch. -/
def chatReducer (state : ChatState) : ChatAction → ChatState
  | .setLoading b => { state with isLoading := b }
  | .setTyping b => { state with isTyping := b }
  | .setError e => { state with error := e }
  | .setConversations cs => { state with conversations := cs }
  | .addConversation c =>
      { state with
        conversations := c :: state.conversations
        currentConversationId := some c.id }
  | .updateConversation c =>
      { state with
        conversations :=
          state.conversations.map (fun conv => if conv.id == c.id then c else conv) }
  | .deleteConversation cid =>
      { state with
        conversations := state.conversations.filter (fun conv => !(conv.id == cid))
        currentConversationId :=
          if state.currentConversationId = some cid then none
          else state.currentConversationId }
  | .setCurrentConversation cid => { state with currentConversationId := cid }
  | .addMessage cid msg now =>
      { state with
        conversations :=
          state.conversations.map (fun conv =>
            if conv.id == cid then updateConversationWithMessage conv msg now
            else conv) }

/-- Outcome of the awaited apiService.sendMessage call, as seen by the
sendMessage operation: ok is a resolved response with success = true and the
payload destructured in the source, err is a resolved response with
success = false and an optional message, exn is a rejected promise (the catch
branch). -/
inductive SendOutcome where
  | ok (aiMessage : Message) (conversationId : String)
  | err (message : Option String)
  | exn
deriving DecidableEq, Repr

/-- True on the two failure outcomes of SendOutcome. -/
def SendOutcome.isFailure : SendOutcome → Bool
  | .ok _ _ => false
  | .err _ => true
  | .exn => true

/-- The request object handed to apiService.sendMessage
(UIContext.tsx, the object literal at the await). -/
structure SendMessageRequest where
  message : String
  conversationId : Option String
  mode : ChatMode
deriving DecidableEq, Repr

/-- Everything one sendMessage call produces: the request that reaches the
backend, the state at the suspension point (synchronously observable, right
after the optimistic dispatches), and the state after the async tail has
run. -/
structure SendResult where
  request : SendMessageRequest
  midState : ChatState
  finalState : ChatState
deriving Repr

/-- UIContext.tsx sendMessage.  The closure reads state.currentConversationId
from the render in which it was created, so every read inside one call sees
the same value, modelled by reading st.currentConversationId throughout.
newId and t1 stand for the generateId() and new Date() of the optimistic user
message, t2 for the new Date() of the assistant-message dispatch. -/
def sendMessage (st : ChatState) (content : String) (mode : ChatMode)
    (newId : String) (t1 t2 : Nat) (outcome : SendOutcome) : SendResult :=
  let st1 := chatReducer st (.setError none)
  let userMessage := createMessage content .user newId t1
  let st2 :=
    match st.currentConversationId with
    | some cid =>
        if cid == "" then st1
        else chatReducer st1 (.addMessage cid userMessage t1)
    | none => st1
  let st3 := chatReducer st2 (.setTyping true)
  let request : SendMessageRequest :=
    { message := content
      conversationId :=
        if optTruthy st.currentConversationId then st.currentConversationId
        else none
      mode := mode }
  let st4 :=
    match outcome with
    | .ok aiMessage conversationId =>
        let st := if optTruthy st.currentConversationId then st3
          else chatReducer st3 (.setCurrentConversation (some conversationId))
        chatReducer st (.addMessage conversationId aiMessage t2)
    | .err m =>
        chatReducer st3 (.setError (some (orFalsy m "Failed to send message")))
    | .exn =>
        chatReducer st3 (.setError (some "Failed to send message"))
  { request := request
    midState := st3
    finalState := chatReducer st4 (.setTyping false) }

/-- UIContext.tsx createNewConversation: a fresh empty conversation whose id
is derived from Date.now(), dispatched as ADD_CONVERSATION (which also makes
it current); returns the new id together with the new state. -/
def createNewConversation (st : ChatState) (now : Nat) : String × ChatState :=
  let newConversation : Conversation :=
    { id := "conv-" ++ toString now
      title := "New Conversation"
      messages := []
      createdAt := now
      updatedAt := now
      mode := some .normal }
  (newConversation.id, chatReducer st (.addConversation newConversation))

/-- UIContext.tsx selectConversation: dispatches SET_CURRENT_CONVERSATION
unconditionally. -/
def selectConversation (st : ChatState) (id : String) : ChatState :=
  chatReducer st (.setCurrentConversation (some id))

/-- Outcome of the awaited apiService.deleteConversation call. -/
inductive DeleteOutcome where
  | ok
  | err (message : Option String)
  | exn
deriving DecidableEq, Repr

/-- True on the two failure outcomes of DeleteOutcome. -/
def DeleteOutcome.isFailure : DeleteOutcome → Bool
  | .ok => false
  | .err _ => true
  | .exn => true

/-- UIContext.tsx deleteConversation: clears the error, awaits the backend
delete, and only on success dispatches the local DELETE_CONVERSATION; on
failure it only sets the error. -/
def deleteConversation (st : ChatState) (id : String)
    (outcome : DeleteOutcome) : ChatState :=
  let st1 := chatReducer st (.setError none)
  match outcome with
  | .ok => chatReducer st1 (.deleteConversation id)
  | .err m =>
      chatReducer st1 (.setError (some (orFalsy m "Failed to delete conversation")))
  | .exn =>
      chatReducer st1 (.setError (some "Failed to delete conversation"))

/-- UIContext.tsx clearError. -/
def clearError (st : ChatState) : ChatState :=
  chatReducer st (.setError none)

/-- Outcome of the awaited apiService.getConversations call. -/
inductive ListOutcome where
  | ok (data : List Conversation)
  | err (message : Option String)
  | exn
deriving DecidableEq, Repr

/-- UIContext.tsx loadConversations: sets loading, clears the error, installs
limitConversations of the backend data on success or an error message on
failure, and finally clears loading.  It never reads conversations from the
storage adapter. -/
def loadConversations (st : ChatState) (outcome : ListOutcome) : ChatState :=
  let st1 := chatReducer st (.setLoading true)
  let st2 := chatReducer st1 (.setError none)
  let st3 :=
    match outcome with
    | .ok data => chatReducer st2 (.setConversations (limitConversations data))
    | .err m =>
        chatReducer st2 (.setError (some (orFalsy m "Failed to load conversations")))
    | .exn =>
        chatReducer st2 (.setError (some "Failed to load conversations"))
  chatReducer st3 (.setLoading false)

/-- UIContext.tsx loadCurrentConversation: reads the persisted id and
dispatches SET_CURRENT_CONVERSATION only when the value is truthy. -/
def loadCurrentConversation (st : ChatState) (savedId : Option String) :
    ChatState :=
  match savedId with
  | some id =>
      if id == "" then st
      else chatReducer st (.setCurrentConversation (some id))
  | none => st

/-- What the storage adapter holds when the provider mounts: the value under
the conversations key (written by storageUtils.saveConversations but never
read back by the provider) and the persisted current conversation id. -/
structure StoredData where
  conversations : Option (List Conversation)
  currentConversationId : Option String
deriving Repr

/-- The mount effect of the ChatProvider (UIContext.tsx, the useEffect that
calls loadConversations() and loadCurrentConversation()): the collection is
fetched from the backend and the current id from storage; the persisted
conversations of StoredData are not consulted. -/
def initialLoad (stored : StoredData) (outcome : ListOutcome) : ChatState :=
  loadCurrentConversation (loadConversations initialChatState outcome)
    stored.currentConversationId

/-- First conversation with the given id, following the
state.conversations.find calls of the source. -/
def findConv (st : ChatState) (cid : String) : Option Conversation :=
  st.conversations.find? (fun conv => conv.id == cid)

/-- Messages of the first conversation with the given id, if any. -/
def getMessages (st : ChatState) (cid : String) : Option (List Message) :=
  (findConv st cid).map Conversation.messages

/-- A JavaScript runtime value of the shapes the engine persists: JSON
primitives, arrays and objects, plus Date instants (epoch milliseconds),
which exist in memory but have no JSON representation of their own. -/
inductive JsValue where
  | jnull
  | jbool (b : Bool)
  | jnum (n : Int)
  | jstr (s : String)
  | jdate (millis : Nat)
  | jarr (items : List JsValue)
  | jobj (fields : List (String × JsValue))
deriving Repr

/-- Left-pad the decimal rendering of n with zeros to the given width. -/
def padZeros (width n : Nat) : String :=
  let s := toString n
  if s.length < width then String.mk (List.replicate (width - s.length) '0') ++ s
  else s

/-- Civil date (year, month, day) of a day count since 0000-03-01, the
standard era-based Gregorian conversion used to render epoch instants. -/
def civilFromDays (z : Nat) : Nat × Nat × Nat :=
  let era := z / 146097
  let doe := z % 146097
  let yoe := (doe - doe / 1460 + doe / 36524 - doe / 146096) / 365
  let y := yoe + era * 400
  let doy := doe - (365 * yoe + yoe / 4 - yoe / 100)
  let mp := (5 * doy + 2) / 153
  let d := doy - (153 * mp + 2) / 5 + 1
  let m := if mp < 10 then mp + 3 else mp - 9
  (if m ≤ 2 then y + 1 else y, m, d)

/-- Date.prototype.toISOString for a Nat epoch-millisecond instant:
YYYY-MM-DDTHH:mm:ss.sssZ.  This is what JSON.stringify stores for a Date,
via Date.prototype.toJSON. -/
def toISOString (millis : Nat) : String :=
  let s := millis / 1000
  let ms := millis % 1000
  let days := s / 86400
  let rem := s % 86400
  let ymd := civilFromDays (days + 719468)
  padZeros 4 ymd.1 ++ "-" ++ padZeros 2 ymd.2.1 ++ "-" ++ padZeros 2 ymd.2.2 ++
    "T" ++ padZeros 2 (rem / 3600) ++ ":" ++ padZeros 2 (rem % 3600 / 60) ++
    ":" ++ padZeros 2 (rem % 60) ++ "." ++ padZeros 3 ms ++ "Z"

mutual
/-- The localStorage round trip of storage.ts: setItem stores
JSON.stringify(value) and getItem returns JSON.parse of that text
(LocalStorageService.setItem / getItem).  On JSON-representable data the
composite is the identity; a Date is stringified through its toJSON
(an ISO-8601 string) and parsed back as a plain string, never revived. -/
def storageRoundTrip : JsValue → JsValue
  | .jnull => .jnull
  | .jbool b => .jbool b
  | .jnum n => .jnum n
  | .jstr s => .jstr s
  | .jdate millis => .jstr (toISOString millis)
  | .jarr items => .jarr (storageRoundTripList items)
  | .jobj fields => .jobj (storageRoundTripFields fields)

/-- storageRoundTrip over the elements of an array. -/
def storageRoundTripList : List JsValue → List JsValue
  | [] => []
  | v :: vs => storageRoundTrip v :: storageRoundTripList vs

/-- storageRoundTrip over the values of an object. -/
def storageRoundTripFields : List (String × JsValue) → List (String × JsValue)
  | [] => []
  | (k, v) :: fs => (k, storageRoundTrip v) :: storageRoundTripFields fs
end

mutual
/-- True when the value contains no Date node. -/
def dateFree : JsValue → Bool
  | .jnull => true
  | .jbool _ => true
  | .jnum _ => true
  | .jstr _ => true
  | .jdate _ => false
  | .jarr items => dateFreeList items
  | .jobj fields => dateFreeFields fields

/-- dateFree over the elements of an array. -/
def dateFreeList : List JsValue → Bool
  | [] => true
  | v :: vs => dateFree v && dateFreeList vs

/-- dateFree over the values of an object. -/
def dateFreeFields : List (String × JsValue) → Bool
  | [] => true
  | (_, v) :: fs => dateFree v && dateFreeFields fs
end

mutual
/-- Number of Date nodes in a value. -/
def countDates : JsValue → Nat
  | .jnull => 0
  | .jbool _ => 0
  | .jnum _ => 0
  | .jstr _ => 0
  | .jdate _ => 1
  | .jarr items => countDatesList items
  | .jobj fields => countDatesFields fields

/-- countDates over the elements of an array. -/
def countDatesList : List JsValue → Nat
  | [] => 0
  | v :: vs => countDates v + countDatesList vs

/-- countDates over the values of an object. -/
def countDatesFields : List (String × JsValue) → Nat
  | [] => 0
  | (_, v) :: fs => countDates v + countDatesFields fs
end

/-- The runtime value of a Message as the provider holds it: the object
createMessage builds, with its Date-typed timestamp. -/
def encodeMessage (m : Message) : JsValue :=
  .jobj ([("id", .jstr m.id), ("content", .jstr m.content),
    ("role", .jstr (match m.role with | .user => "user" | .assistant => "assistant")),
    ("timestamp", .jdate m.timestamp)] ++
    (match m.isTyping with
     | some b => [("isTyping", .jbool b)]
     | none => []))

/-- The runtime value of a Conversation as the provider holds it, with its
Date-typed createdAt and updatedAt. -/
def encodeConversation (c : Conversation) : JsValue :=
  .jobj ([("id", .jstr c.id), ("title", .jstr c.title),
    ("messages", .jarr (c.messages.map encodeMessage)),
    ("createdAt", .jdate c.createdAt), ("updatedAt", .jdate c.updatedAt)] ++
    (match c.mode with
     | some .normal => [("mode", .jstr "normal")]
     | some .deepthink => [("mode", .jstr "deepthink")]
     | some .research => [("mode", .jstr "research")]
     | none => []))

/-- The runtime value storageUtils.saveConversations hands to setItem: the
array of conversation objects. -/
def encodeConversations (cs : List Conversation) : JsValue :=
  .jarr (cs.map encodeConversation)

/-- What storageUtils.loadConversations would return after
storageUtils.saveConversations cs: the stored JSON, parsed back. -/
def saveThenLoadConversations (cs : List Conversation) : JsValue :=
  storageRoundTrip (encodeConversations cs)

/-- Finding by id in a list filtered to exclude that id yields nothing. -/
theorem find?_filter_not_id (l : List Conversation) (cid : String) :
    (l.filter (fun c => !(c.id == cid))).find? (fun c => c.id == cid) = none := by
  rw [List.find?_eq_none]
  intro x hx
  have h2 := (List.mem_filter.mp hx).2
  simp only [Bool.not_eq_true', beq_eq_false_iff_ne, ne_eq] at h2
  simp [h2]

/-- Mapping an id-preserving update over the conversation list rewrites the
first conversation found under that id and nothing is lost: the reducer's
ADD_MESSAGE case, seen through find?. -/
theorem find?_map_ite_update (l : List Conversation) (cid : String)
    (conv : Conversation) (g : Conversation → Conversation)
    (hg : (g conv).id = conv.id)
    (h : l.find? (fun c => c.id == cid) = some conv) :
    (l.map (fun c => if c.id == cid then g c else c)).find?
      (fun c => c.id == cid) = some (g conv) := by
  induction l with
  | nil => simp at h
  | cons d ds ih =>
      by_cases hd : (d.id == cid) = true
      · rw [List.find?_cons, hd] at h
        injection h with h
        subst h
        have h2 : ((g d).id == cid) = true := by rw [hg]; exact hd
        simp only [List.map_cons, if_pos hd]
        rw [List.find?_cons, h2]
      · rw [List.find?_cons, Bool.of_not_eq_true hd] at h
        simp only [List.map_cons, if_neg hd]
        rw [List.find?_cons, Bool.of_not_eq_true hd]
        exact ih h

/-- When no conversation carries the id, the mapped update of the reducer's
ADD_MESSAGE case leaves the list unchanged. -/
theorem map_ite_update_of_find?_none (l : List Conversation) (cid : String)
    (g : Conversation → Conversation)
    (h : l.find? (fun c => c.id == cid) = none) :
    l.map (fun c => if c.id == cid then g c else c) = l := by
  induction l with
  | nil => rfl
  | cons d ds ih =>
      rw [List.find?_eq_none] at h
      have hd : ¬ ((d.id == cid) = true) := h d (List.mem_cons_self d ds)
      simp only [List.map_cons, if_neg hd]
      rw [ih (List.find?_eq_none.mpr (fun x hx => h x (List.mem_cons_of_mem d hx)))]

mutual
/-- The storage round trip is the identity on values without Date nodes. -/
theorem storageRoundTrip_eq_of_dateFree (v : JsValue)
    (h : dateFree v = true) : storageRoundTrip v = v := by
  cases v with
  | jnull => rfl
  | jbool b => rfl
  | jnum n => rfl
  | jstr s => rfl
  | jdate m => simp [dateFree] at h
  | jarr items =>
      simp only [storageRoundTrip]
      rw [storageRoundTripList_eq_of_dateFree items (by simpa [dateFree] using h)]
  | jobj fields =>
      simp only [storageRoundTrip]
      rw [storageRoundTripFields_eq_of_dateFree fields (by simpa [dateFree] using h)]

/-- Array version of storageRoundTrip_eq_of_dateFree. -/
theorem storageRoundTripList_eq_of_dateFree (l : List JsValue)
    (h : dateFreeList l = true) : storageRoundTripList l = l := by
  cases l with
  | nil => rfl
  | cons v vs =>
      simp only [dateFreeList, Bool.and_eq_true] at h
      simp only [storageRoundTripList]
      rw [storageRoundTrip_eq_of_dateFree v h.1,
        storageRoundTripList_eq_of_dateFree vs h.2]

/-- Object version of storageRoundTrip_eq_of_dateFree. -/
theorem storageRoundTripFields_eq_of_dateFree (l : List (String × JsValue))
    (h : dateFreeFields l = true) : storageRoundTripFields l = l := by
  cases l with
  | nil => rfl
  | cons f fs =>
      obtain ⟨k, v⟩ := f
      simp only [dateFreeFields, Bool.and_eq_true] at h
      simp only [storageRoundTripFields]
      rw [storageRoundTrip_eq_of_dateFree v h.1,
        storageRoundTripFields_eq_of_dateFree fs h.2]
end

/-- A sample conversation: the shape createNewConversation builds, with the
epoch instant as both timestamps. -/
def conv0 : Conversation :=
  { id := "c1"
    title := "New Conversation"
    messages := []
    createdAt := 0
    updatedAt := 0
    mode := some .normal }

/-- A sample state holding conv0 as the selected conversation. -/
def stWithConv0 : ChatState :=
  { conversations := [conv0]
    currentConversationId := some "c1"
    isLoading := false
    isTyping := false
    error := none }

/-- A sample assistant message as the backend returns it. -/
def aiMsg0 : Message :=
  { id := "ai1"
    content := "reply"
    role := .assistant
    timestamp := 5
    isTyping := some false }

/-- A sample conversation as the backend list endpoint returns it. -/
def convB : Conversation :=
  { id := "b1"
    title := "How to build a React app"
    messages := []
    createdAt := 10
    updatedAt := 10
    mode := none }

/-- C1 counterexample: deleting the only conversation (with a successful
backend delete) leaves the collection EMPTY and the selection null — no
remaining conversation is selected and no fresh conversation is auto-created,
contradicting the claim that the collection ends non-empty with
currentConversationId pointing at an auto-created conversation. -/
theorem C1_counterexample :
    (deleteConversation stWithConv0 "c1" .ok).conversations = [] ∧
    (deleteConversation stWithConv0 "c1" .ok).currentConversationId = none := by
  exact ⟨rfl, rfl⟩

/-- C1 (amended): after deleteConversation completes its local update (the
backend call succeeded), the deleted id is absent from the collection, and if
it was the current selection the store sets currentConversationId to null —
it neither selects another conversation nor creates a fresh one. -/
theorem C1_theorem (st : ChatState) (id : String) :
    findConv (deleteConversation st id .ok) id = none ∧
    (deleteConversation st id .ok).currentConversationId =
      (if st.currentConversationId = some id then none
       else st.currentConversationId) := by
  constructor
  · simp only [deleteConversation, chatReducer, findConv]
    exact find?_filter_not_id _ _
  · simp only [deleteConversation, chatReducer]

/-- C5 counterexample: when the backend delete fails, the conversation is NOT
removed from the local collection (it survives untouched) and lastError is
set — contradicting the claim that local deletion is applied regardless of
the backend outcome. -/
theorem C5_counterexample :
    (deleteConversation stWithConv0 "c1" (.err none)).conversations = [conv0] ∧
    (deleteConversation stWithConv0 "c1" (.err none)).error =
      some "Failed to delete conversation" := by
  exact ⟨rfl, rfl⟩

/-- C5 (amended): deletion is backend-first, not local-first: on any backend
failure the local collection and the selection are left unchanged and only
lastError is set; the local removal happens exclusively on backend success. -/
theorem C5_theorem (st : ChatState) (id : String) (outcome : DeleteOutcome)
    (h : outcome.isFailure = true) :
    (deleteConversation st id outcome).conversations = st.conversations ∧
    (deleteConversation st id outcome).currentConversationId =
      st.currentConversationId ∧
    (deleteConversation st id outcome).error.isSome = true := by
  cases outcome with
  | ok => simp [DeleteOutcome.isFailure] at h
  | err m => exact ⟨rfl, rfl, rfl⟩
  | exn => exact ⟨rfl, rfl, rfl⟩

/-- C5 witness: C5_theorem applied to the sample state with a failed backend
delete. -/
theorem C5_witness :
    (deleteConversation stWithConv0 "c1" (.err none)).conversations =
      stWithConv0.conversations ∧
    (deleteConversation stWithConv0 "c1" (.err none)).currentConversationId =
      stWithConv0.currentConversationId ∧
    (deleteConversation stWithConv0 "c1" (.err none)).error.isSome = true :=
  C5_theorem stWithConv0 "c1" (.err none) rfl

/-- C9 counterexample: from the initial state (empty collection), the
reachable state selectConversation(initialChatState, "x") has
currentConversationId = "x" although no conversation with id "x" exists —
selection of an unknown id is not a no-op and the invariant fails. -/
theorem C9_counterexample :
    findConv (selectConversation initialChatState "x") "x" = none ∧
    (selectConversation initialChatState "x").currentConversationId =
      some "x" := by
  exact ⟨rfl, rfl⟩

/-- C9 (amended): selectConversation performs no existence check: for every
state and every id it unconditionally sets currentConversationId to the id
and leaves the collection unchanged, so currentConversationId can be left
referencing a conversation that is not in the collection. -/
theorem C9_theorem (st : ChatState) (id : String) :
    (selectConversation st id).currentConversationId = some id ∧
    (selectConversation st id).conversations = st.conversations := by
  exact ⟨rfl, rfl⟩

/-- C2 counterexample: sendMessage with no current conversation (initial
state) and a successful backend reply leaves the local collection EMPTY — no
conversation is created implicitly and no messages are stored — while
currentConversationId is set to the backend-assigned id, contradicting the
claim that the new conversation is created in the store and ends with 2
messages. -/
theorem C2_counterexample :
    (sendMessage initialChatState "hello" .normal "u1" 1 2
      (.ok aiMsg0 "newconv")).finalState.conversations = [] ∧
    (sendMessage initialChatState "hello" .normal "u1" 1 2
      (.ok aiMsg0 "newconv")).finalState.currentConversationId =
      some "newconv" := by
  exact ⟨rfl, rfl⟩

/-- C2 (amended): when no conversation is selected, sendMessage creates no
conversation locally and appends nothing: after a successful backend call the
collection is unchanged and currentConversationId is set to the
backend-returned id, which (when that id is not already present locally)
references no conversation in the collection. -/
theorem C2_theorem (st : ChatState) (content : String) (mode : ChatMode)
    (newId : String) (t1 t2 : Nat) (aiMsg : Message) (convId : String)
    (h1 : st.currentConversationId = none)
    (h2 : findConv st convId = none) :
    (sendMessage st content mode newId t1 t2
      (.ok aiMsg convId)).finalState.conversations = st.conversations ∧
    (sendMessage st content mode newId t1 t2
      (.ok aiMsg convId)).finalState.currentConversationId = some convId ∧
    findConv (sendMessage st content mode newId t1 t2
      (.ok aiMsg convId)).finalState convId = none := by
  have hmap : st.conversations.map
      (fun c => if c.id == convId then
        updateConversationWithMessage c aiMsg t2 else c) = st.conversations :=
    map_ite_update_of_find?_none _ _ _ h2
  unfold findConv at h2 ⊢
  simp only [sendMessage, h1, optTruthy, chatReducer, Bool.false_eq_true,
    if_false, hmap]
  exact ⟨trivial, trivial, h2⟩

/-- C2 witness: C2_theorem applied to the initial state and a backend reply
assigning the fresh id "newconv". -/
theorem C2_witness :
    (sendMessage initialChatState "hello" .normal "u1" 1 2
      (.ok aiMsg0 "newconv")).finalState.conversations =
      initialChatState.conversations ∧
    (sendMessage initialChatState "hello" .normal "u1" 1 2
      (.ok aiMsg0 "newconv")).finalState.currentConversationId =
      some "newconv" ∧
    findConv (sendMessage initialChatState "hello" .normal "u1" 1 2
      (.ok aiMsg0 "newconv")).finalState "newconv" = none :=
  C2_theorem initialChatState "hello" .normal "u1" 1 2 aiMsg0 "newconv" rfl rfl

/-- C3 counterexample: sendMessage("") — trimmed-empty input — does NOT fail
with a validation error: the request still reaches the backend carrying the
empty text, the typing flag is set (a state mutation), and the empty message
is even appended to the selected conversation, although validateMessage
classifies the input as invalid. -/
theorem C3_counterexample :
    (validateMessage "").isValid = false ∧
    (sendMessage stWithConv0 "" .normal "u1" 7 8 (.err none)).request.message
      = "" ∧
    (sendMessage stWithConv0 "" .normal "u1" 7 8 (.err none)).midState.isTyping
      = true ∧
    getMessages (sendMessage stWithConv0 "" .normal "u1" 7 8
      (.err none)).midState "c1" = some [createMessage "" .user "u1" 7] := by
  exact ⟨rfl, rfl, rfl, rfl⟩

/-- C3 (amended): validateMessage classifies exactly the trimmed-empty and
over-length (more than 4000 characters) inputs as invalid, but sendMessage
never invokes it: for every input text whatsoever the request is passed to
the backend with the raw text and the typing flag is raised, so no input is
rejected before mutation or network use. -/
theorem C3_theorem (content : String) (st : ChatState) (mode : ChatMode)
    (newId : String) (t1 t2 : Nat) (outcome : SendOutcome) :
    ((validateMessage content).isValid = false ↔
      (jsLength (jsTrim content) = 0 ∨ MAX_MESSAGE_LENGTH < jsLength content)) ∧
    (sendMessage st content mode newId t1 t2 outcome).request.message =
      content ∧
    (sendMessage st content mode newId t1 t2 outcome).midState.isTyping =
      true := by
  refine ⟨?_, ?_, ?_⟩
  · by_cases h0 : content = ""
    · subst h0
      exact iff_of_true rfl (Or.inl rfl)
    · have hb : (content == "") = false := by
        simp [h0]
      by_cases h1 : jsLength (jsTrim content) = 0
      · have hc : ((content == "") || (jsLength (jsTrim content) == 0)) = true := by
          simp [hb, h1]
        simp [validateMessage, hc, h1]
      · have hc : ((content == "") || (jsLength (jsTrim content) == 0)) = false := by
          simp [hb, h1]
        by_cases h2 : MAX_MESSAGE_LENGTH < jsLength content
        · simp [validateMessage, hc, h2]
        · simp [validateMessage, hc, h2, h1]
  · simp only [sendMessage]
  · simp only [sendMessage]
    cases h : st.currentConversationId <;> simp [chatReducer]

/-- C4 counterexample: for the valid text "hi" sent from the initial state
(no conversation selected), NO user message is appended anywhere before the
network call — the synchronously observable collection is still empty — so
the optimistic append is missing for this valid input. -/
theorem C4_counterexample :
    (validateMessage "hi").isValid = true ∧
    (sendMessage initialChatState "hi" .normal "u1" 1 2
      (.err none)).midState.conversations = [] := by
  exact ⟨rfl, rfl⟩

/-- C4 (amended): when a conversation is selected (a non-empty current id
that exists in the collection), sendMessage appends exactly one new user-role
message — the trimmed text — to that conversation before the backend call,
observable in the synchronous state, and the number of conversations is
unchanged; with no conversation selected the optimistic append does not
happen at all. -/
theorem C4_theorem (st : ChatState) (content : String) (mode : ChatMode)
    (newId : String) (t1 t2 : Nat) (outcome : SendOutcome) (cid : String)
    (conv : Conversation)
    (h1 : st.currentConversationId = some cid)
    (h2 : (cid == "") = false)
    (h3 : findConv st cid = some conv) :
    getMessages (sendMessage st content mode newId t1 t2 outcome).midState cid
      = some (conv.messages ++ [createMessage content .user newId t1]) ∧
    (sendMessage st content mode newId t1 t2 outcome).midState.conversations.length
      = st.conversations.length := by
  unfold findConv at h3
  have hup := find?_map_ite_update st.conversations cid conv
    (fun c => updateConversationWithMessage c
      (createMessage content .user newId t1) t1) rfl h3
  constructor
  · simp only [sendMessage, h1, h2, chatReducer, getMessages, findConv,
      Bool.false_eq_true, if_false, hup]
    rfl
  · simp only [sendMessage, h1, h2, chatReducer, Bool.false_eq_true, if_false,
      List.length_map]

/-- C4 witness: C4_theorem applied to the sample state with selected
conversation conv0 and the valid text "hi". -/
theorem C4_witness :
    getMessages (sendMessage stWithConv0 "hi" .normal "u1" 1 2
      (.err none)).midState "c1"
      = some (conv0.messages ++ [createMessage "hi" .user "u1" 1]) ∧
    (sendMessage stWithConv0 "hi" .normal "u1" 1 2
      (.err none)).midState.conversations.length =
      stWithConv0.conversations.length :=
  C4_theorem stWithConv0 "hi" .normal "u1" 1 2 (.err none) "c1" conv0 rfl rfl rfl

/-- C10: when the backend send fails while a (non-empty, existing) current
conversation is selected, the settled state still holds the optimistic user
message appended at the end of that conversation, the typing flag is false
and lastError is set.  This confirms the claim. -/
theorem C10_theorem (st : ChatState) (content : String) (mode : ChatMode)
    (newId : String) (t1 t2 : Nat) (outcome : SendOutcome) (cid : String)
    (conv : Conversation)
    (h1 : st.currentConversationId = some cid)
    (h2 : (cid == "") = false)
    (h3 : findConv st cid = some conv)
    (h4 : outcome.isFailure = true) :
    getMessages (sendMessage st content mode newId t1 t2 outcome).finalState cid
      = some (conv.messages ++ [createMessage content .user newId t1]) ∧
    (sendMessage st content mode newId t1 t2 outcome).finalState.isTyping
      = false ∧
    (sendMessage st content mode newId t1 t2 outcome).finalState.error.isSome
      = true := by
  unfold findConv at h3
  have hup := find?_map_ite_update st.conversations cid conv
    (fun c => updateConversationWithMessage c
      (createMessage content .user newId t1) t1) rfl h3
  cases outcome with
  | ok aiMsg convId => simp [SendOutcome.isFailure] at h4
  | err m =>
      refine ⟨?_, rfl, rfl⟩
      simp only [sendMessage, h1, h2, chatReducer, getMessages, findConv,
        Bool.false_eq_true, if_false, hup]
      rfl
  | exn =>
      refine ⟨?_, rfl, rfl⟩
      simp only [sendMessage, h1, h2, chatReducer, getMessages, findConv,
        Bool.false_eq_true, if_false, hup]
      rfl

/-- C10 witness: C10_theorem applied to the sample state with selected
conversation conv0, the text "hi" and a backend rejection. -/
theorem C10_witness :
    getMessages (sendMessage stWithConv0 "hi" .normal "u1" 1 2
      (.err (some "boom"))).finalState "c1"
      = some (conv0.messages ++ [createMessage "hi" .user "u1" 1]) ∧
    (sendMessage stWithConv0 "hi" .normal "u1" 1 2
      (.err (some "boom"))).finalState.isTyping = false ∧
    (sendMessage stWithConv0 "hi" .normal "u1" 1 2
      (.err (some "boom"))).finalState.error.isSome = true :=
  C10_theorem stWithConv0 "hi" .normal "u1" 1 2 (.err (some "boom")) "c1"
    conv0 rfl rfl rfl rfl

/-- Iterated createNewConversation from the initial state, creation number n
serving as the Date.now() instant of the n-th call. -/
def addConvTimes : Nat → ChatState
  | 0 => initialChatState
  | n + 1 => (createNewConversation (addConvTimes n) n).2

/-- C6 counterexample: 51 consecutive createConversation calls leave 51
conversations in the collection — the 51st call on a collection already at
the 50-conversation cap evicts nothing and the size exceeds
MAX_CONVERSATIONS, contradicting the claimed capacity invariant. -/
theorem C6_counterexample :
    (addConvTimes 51).conversations.length = 51 ∧
    ¬ ((addConvTimes 51).conversations.length ≤ MAX_CONVERSATIONS) := by
  exact ⟨by decide, by decide⟩

/-- C6 (amended): the capacity rule is enforced only when conversations are
loaded from the backend: loadConversations installs limitConversations of the
backend data, which retains at most MAX_CONVERSATIONS conversations; the
ADD_CONVERSATION and ADD_MESSAGE reducer cases apply no cap, so
createConversation can grow the collection beyond MAX_CONVERSATIONS. -/
theorem C6_theorem (st : ChatState) (cs : List Conversation) :
    (loadConversations st (.ok cs)).conversations = limitConversations cs ∧
    (limitConversations cs).length ≤ MAX_CONVERSATIONS := by
  constructor
  · simp only [loadConversations, chatReducer]
  · unfold limitConversations
    rw [List.length_take]
    exact Nat.min_le_left _ _

/-- C7 counterexample: one save/load cycle does not restore the state that
was saved: for a collection holding one fresh conversation, the stored value
comes back with its two Date-valued fields (createdAt, updatedAt) turned into
ISO-8601 strings, so the restored value differs from the saved one — the
mismatch is a type change, not a precision issue. -/
theorem C7_counterexample :
    saveThenLoadConversations [conv0] ≠ encodeConversations [conv0] := by
  intro h
  have h2 := congrArg countDates h
  rw [show countDates (saveThenLoadConversations [conv0]) = 0 from rfl,
    show countDates (encodeConversations [conv0]) = 2 from rfl] at h2
  exact absurd h2 (by decide)

/-- C7 (amended): the storage round trip is the identity exactly on the
non-Date content: any value free of Date nodes is restored unchanged, while
Date-valued timestamp fields come back as ISO-8601 strings and are never
revived as Dates, so a state containing timestamps does not round-trip to an
equal state. -/
theorem C7_theorem (v : JsValue) (h : dateFree v = true) :
    storageRoundTrip v = v :=
  storageRoundTrip_eq_of_dateFree v h

/-- C7 witness: C7_theorem applied to a concrete date-free value. -/
theorem C7_witness :
    dateFree (JsValue.jarr [JsValue.jstr "hello", JsValue.jnum 3]) = true ∧
    storageRoundTrip (JsValue.jarr [JsValue.jstr "hello", JsValue.jnum 3]) =
      JsValue.jarr [JsValue.jstr "hello", JsValue.jnum 3] :=
  ⟨rfl, C7_theorem (JsValue.jarr [JsValue.jstr "hello", JsValue.jnum 3]) rfl⟩

/-- C8 counterexample: with persisted conversations PRESENT in storage
(conv0) and the backend returning a different list (convB), the initial load
installs the backend list, not the persisted one — persisted conversations
are never read, contradicting the claim that the backend is consulted only
when persisted conversations are absent. -/
theorem C8_counterexample :
    (initialLoad ⟨some [conv0], none⟩ (.ok [convB])).conversations = [convB] ∧
    [convB] ≠ [conv0] := by
  exact ⟨rfl, by decide⟩

/-- C8 (amended): the initial load takes only the persisted current
conversation id from the storage adapter; the installed collection always
comes from the backend listConversations result (capped by
limitConversations), whatever the storage adapter holds under the
conversations key. -/
theorem C8_theorem (stored : StoredData) (data : List Conversation) :
    (initialLoad stored (.ok data)).conversations = limitConversations data ∧
    (initialLoad stored (.ok data)).currentConversationId =
      (if optTruthy stored.currentConversationId then
        stored.currentConversationId else none) := by
  unfold initialLoad loadCurrentConversation loadConversations
  cases h : stored.currentConversationId with
  | none => simp [chatReducer, optTruthy, initialChatState]
  | some id =>
      by_cases hid : (id == "") = true
      · simp [chatReducer, optTruthy, hid, initialChatState,
          eq_of_beq hid]
      · simp [chatReducer, optTruthy, hid, initialChatState]
